import Mathlib

/-!
Verification development for the SoundRecorder multitrack DAW core
(src/app.js, src/unnamed/part_000, src/unnamed/part_001).

Times are modelled as rationals (the JS code computes with IEEE doubles,
but every scheduling decision in the claims is an exact arithmetic
comparison, so ℚ is a faithful shallow embedding).  DOM handles, canvases,
media streams and analysers are external collaborators and are omitted
from the state; every model field below corresponds to a module-level
JS variable or an object field of the source.
-/

namespace SoundRecorder

/-- Configuration constants shared by src/app.js and src/unnamed/part_000. -/
def PIXELS_PER_SECOND : ℚ := 50

/-- TRACK_DURATION_SECONDS = 600 (10 minutes). -/
def TRACK_DURATION_SECONDS : ℚ := 600

/-- The fixed scheduling lookahead added to audioContext.currentTime in the
masterPlayBtn handlers: startAt = currentTime + 0.05. -/
def SCHEDULING_DELAY : ℚ := 1/20

/-- SCRUB_SLICE_SEC = 0.08 (src/unnamed/part_000). -/
def SCRUB_SLICE_SEC : ℚ := 2/25

/-- SCRUB_THROTTLE_MS = 30 (src/unnamed/part_000). -/
def SCRUB_THROTTLE_MS : ℚ := 30

/-- A decoded audio buffer; only its duration participates in scheduling. -/
structure AudioBuffer where
  duration : ℚ
  deriving DecidableEq, Repr

/-- The scheduling data of one full-playback voice: the device-clock time
passed to src.start and the in-buffer offset. -/
structure ScheduledVoice where
  startWhen : ℚ
  bufferOffset : ℚ
  deriving DecidableEq, Repr

/-- One timeline (track) object from the timelines array.  Fields
mirror the JS object literal in createTimeline; canvas, ctx, trackEl,
analyser, recorder, mediaStream and chunks are external handles omitted
here.  sourceNodes is kept as the list of voices started for this track,
each voice recorded by its scheduling data. -/
structure Timeline where
  buffer : Option AudioBuffer
  startTime : ℚ
  isRecording : Bool
  isDraggingTimeline : Bool
  dragStartX : ℚ
  dragStartOffset : ℚ
  sourceNodes : List ScheduledVoice
  deriving DecidableEq, Repr

/-- The per-timeline body of the masterPlayBtn scheduling loop
(src/app.js lines 417-451, src/unnamed/part_000 lines 530-557):
skip when there is no buffer or the clip ended at or before the cursor;
otherwise start at startAt with offset max(0, playFrom - clipStart) when
the clip started at or before the cursor, else at
startAt + (clipStart - playFrom) with offset 0. -/
def scheduleTimeline (startAt playFrom : ℚ) (tl : Timeline) :
    Option ScheduledVoice :=
  match tl.buffer with
  | none => none
  | some buf =>
    let clipStart := tl.startTime
    let clipEnd := clipStart + buf.duration
    if clipEnd ≤ playFrom then none
    else if clipStart ≤ playFrom then
      some ⟨startAt, max 0 (playFrom - clipStart)⟩
    else
      some ⟨startAt + (clipStart - playFrom), 0⟩

/-- One element of the activeScrubSources array
(src/unnamed/part_000 line 428: push of src, gainNode, stopTimeout).
srcId stands for the identity of the src BufferSource object and
timerId for the setTimeout handle; createdAt records the
performance.now() value of the performScrubAt call that created the
voice, which identifies the creating trigger. -/
structure ScrubItem where
  srcId : ℕ
  timerId : ℕ
  createdAt : ℚ
  deriving DecidableEq, Repr

/-- The module-level mutable state of src/unnamed/part_000 (the scrub
variant; src/app.js is the same state without the scrub fields).
pendingTimers holds the ids of watchdog setTimeout callbacks that have
been scheduled and neither fired nor been cleared; nextId is the fresh
id supply standing for object identity of sources, timers and
requestAnimationFrame handles. -/
structure DAWState where
  isPlaying : Bool
  projectStartTime : ℚ
  projectCursorTime : ℚ
  projectCursorTimeAtPlayStart : ℚ
  timelines : List Timeline
  currentPage : ℤ
  animationId : Option ℕ
  isScrubbing : Bool
  scrubRAF : Option ℕ
  lastPerformScrubAt : ℚ
  activeScrubSources : List ScrubItem
  pendingTimers : List ℕ
  nextId : ℕ
  deriving DecidableEq, Repr

/-- stopAllSources (src/unnamed/part_000 lines 79-91, src/app.js lines
475-487): try-stop every source of every timeline (the try/catch makes
stopping an already-ended source a no-op, hence the function is total),
empty each sourceNodes array, cancel the animation frame, clear
isPlaying. -/
def stopAllSources (st : DAWState) : DAWState :=
  { st with
    timelines := st.timelines.map (fun tl => { tl with sourceNodes := [] }),
    animationId := none,
    isPlaying := false }

/-- clearScrubSources (src/unnamed/part_000 lines 94-100): try-stop each
active scrub source, clearTimeout its watchdog, then empty the array. -/
def clearScrubSources (st : DAWState) : DAWState :=
  { st with
    pendingTimers :=
      st.pendingTimers.filter
        (fun t => st.activeScrubSources.all (fun i => i.timerId != t)),
    activeScrubSources := [] }

/-- getProjectCursorTime (src/app.js lines 319-325, src/unnamed/part_000
lines 341-347): while playing, returns
max(0, (deviceNow - projectStartTime) + projectCursorTimeAtPlayStart);
otherwise returns projectCursorTime. -/
def getProjectCursorTime (deviceNow : ℚ) (st : DAWState) : ℚ :=
  if st.isPlaying then
    max 0 ((deviceNow - st.projectStartTime) + st.projectCursorTimeAtPlayStart)
  else st.projectCursorTime

/-- updateCursorVisual (paging part; src/app.js lines 331-351,
src/unnamed/part_000 lines 350-377): recompute the page from the cursor
position and update currentPage when it changed.  Drawing and the
scrollLeft side effects are external. -/
def updateCursorVisual (pageWidth : ℚ) (st : DAWState) : DAWState :=
  let globalX := st.projectCursorTime * PIXELS_PER_SECOND
  let newPage := ⌊globalX / pageWidth⌋
  if newPage ≠ st.currentPage then { st with currentPage := newPage } else st

/-- setProjectCursorTime (src/app.js lines 312-316, src/unnamed/part_000
lines 336-339): clamp into [0, 600] and refresh the cursor visual. -/
def setProjectCursorTime (pageWidth t : ℚ) (st : DAWState) : DAWState :=
  updateCursorVisual pageWidth
    { st with projectCursorTime := max 0 (min t TRACK_DURATION_SECONDS) }

/-- One step of animateCursorDuringPlay (src/app.js lines 458-472,
src/unnamed/part_000 lines 564-576): while playing, set
projectCursorTime := deviceNow - projectStartTime, refresh the visual,
stop everything when the cursor reached the track duration, otherwise
request the next frame. -/
def animateCursorDuringPlay (pageWidth deviceNow : ℚ) (st : DAWState) :
    DAWState :=
  if st.isPlaying = false then st
  else
    let elapsed := deviceNow - st.projectStartTime
    let st1 := updateCursorVisual pageWidth
      { st with projectCursorTime := elapsed }
    if TRACK_DURATION_SECONDS ≤ elapsed then stopAllSources st1
    else { st1 with animationId := some st1.nextId, nextId := st1.nextId + 1 }

/-- The per-timeline guard of the performScrubAt loop
(src/unnamed/part_000 lines 394-399): a slice is produced iff the track
has a buffer and 0 ≤ cursorTime - startTime < buffer.duration. -/
def scrubQualifies (cursorTime : ℚ) (tl : Timeline) : Bool :=
  match tl.buffer with
  | none => false
  | some buf =>
    decide (0 ≤ cursorTime - tl.startTime)
      && decide (cursorTime - tl.startTime < buf.duration)

/-- The voice-creating forEach of performScrubAt (src/unnamed/part_000
lines 394-431): for each qualifying timeline, create a source and a
watchdog setTimeout and push them onto activeScrubSources. -/
def spawnScrubVoices (now cursorTime : ℚ) :
    List Timeline → DAWState → DAWState
  | [], st => st
  | tl :: rest, st =>
    if scrubQualifies cursorTime tl then
      spawnScrubVoices now cursorTime rest
        { st with
          activeScrubSources :=
            st.activeScrubSources ++ [⟨st.nextId, st.nextId + 1, now⟩],
          pendingTimers := st.pendingTimers ++ [st.nextId + 1],
          nextId := st.nextId + 2 }
    else spawnScrubVoices now cursorTime rest st

/-- performScrubAt (src/unnamed/part_000 lines 386-432): throttle by
SCRUB_THROTTLE_MS, record the trigger time, return early when there are
no timelines, end all previous scrub voices, then spawn this
generation.  now stands for the performance.now() read at entry. -/
def performScrubAt (now cursorTime : ℚ) (st : DAWState) : DAWState :=
  if now - st.lastPerformScrubAt < SCRUB_THROTTLE_MS then st
  else
    let st1 := { st with lastPerformScrubAt := now }
    if st1.timelines.isEmpty then st1
    else spawnScrubVoices now cursorTime st1.timelines (clearScrubSources st1)

/-- The onended callback of a scrub source (src/unnamed/part_000 line
430): clearTimeout of the captured watchdog and filter the captured
source out of activeScrubSources.  The item value identifies the
(src, stopTimeout) pair captured by the closure. -/
def scrubVoiceEnded (item : ScrubItem) (st : DAWState) : DAWState :=
  { st with
    pendingTimers := st.pendingTimers.filter (fun t => t != item.timerId),
    activeScrubSources :=
      st.activeScrubSources.filter (fun i => i != item) }

/-- The watchdog setTimeout callback (src/unnamed/part_000 lines
424-426): the timer fires (so it is pending no longer) and try-stops its
source; active-set removal happens later through the onended event. -/
def watchdogFire (timerId : ℕ) (st : DAWState) : DAWState :=
  { st with pendingTimers := st.pendingTimers.filter (fun t => t != timerId) }

/-- stopScrubMode (src/unnamed/part_000 lines 452-456). -/
def stopScrubMode (st : DAWState) : DAWState :=
  clearScrubSources { st with isScrubbing := false, scrubRAF := none }

/-- startScrubMode (src/unnamed/part_000 lines 443-449): stop any full
playback, enter scrub mode, reset the throttle clock and run the first
scrubLoop iteration synchronously (which calls performScrubAt at the
current cursor and registers the RAF handle). -/
def startScrubMode (now : ℚ) (st : DAWState) : DAWState :=
  let st1 := if st.isPlaying then stopAllSources st else st
  let st2 := { st1 with isScrubbing := true, lastPerformScrubAt := 0 }
  let st3 := performScrubAt now st2.projectCursorTime st2
  { st3 with scrubRAF := some st3.nextId, nextId := st3.nextId + 1 }

/-- The window pointermove drag handler of a timeline
(src/unnamed/part_000 lines 171-179; src/app.js lines 109-120 is the
mousemove twin): while a drag is active, set
startTime := max(0, dragStartOffset + dx / PIXELS_PER_SECOND).
There is no check of the recording or playback state. -/
def pointermoveDrag (clientX : ℚ) (tl : Timeline) : Timeline :=
  if tl.isDraggingTimeline = false then tl
  else
    { tl with
      startTime :=
        max 0 (tl.dragStartOffset + (clientX - tl.dragStartX) / PIXELS_PER_SECOND) }

/-- Replace the element at a position by its image under f (identity
beyond the end of the list). -/
def setAt (f : Timeline → Timeline) : ℕ → List Timeline → List Timeline
  | _, [] => []
  | 0, tl :: rest => f tl :: rest
  | n + 1, tl :: rest => tl :: setAt f n rest

/-- Apply f to the track at position idx, as timelines[index] mutation. -/
def modifyTrack (idx : ℕ) (f : Timeline → Timeline) (st : DAWState) :
    DAWState :=
  { st with timelines := setAt f idx st.timelines }

/-- The scheduling forEach of the masterPlay handlers: push the computed
voice of each overlapping clip onto the sourceNodes of that timeline. -/
def scheduleIntoTimelines (startAt playFrom : ℚ) (tls : List Timeline) :
    List Timeline :=
  tls.map (fun tl =>
    match scheduleTimeline startAt playFrom tl with
    | none => tl
    | some v => { tl with sourceNodes := tl.sourceNodes ++ [v] })

/-- The masterPlayBtn click handler of src/app.js (lines 402-455): a pure
no-op while playing; otherwise record the play-start cursor, set
projectStartTime = startAt - cursor with startAt = deviceNow + 0.05,
stop previous sources, schedule every overlapping clip, set isPlaying
and run the first animation frame synchronously. -/
def masterPlayClick_app (pageWidth deviceNow : ℚ) (st : DAWState) : DAWState :=
  if st.isPlaying then st
  else
    let cursorAtStart := st.projectCursorTime
    let startAt := deviceNow + SCHEDULING_DELAY
    let st1 := { st with
      projectCursorTimeAtPlayStart := cursorAtStart,
      projectStartTime := startAt - cursorAtStart }
    let st2 := stopAllSources st1
    let st3 := { st2 with
      timelines := scheduleIntoTimelines startAt cursorAtStart st2.timelines,
      isPlaying := true }
    animateCursorDuringPlay pageWidth deviceNow st3

/-- The masterPlayBtn click handler of src/unnamed/part_000 (lines
510-561): while playing it STOPS playback (toggle) and refreshes the
visual; otherwise it records the play-start cursor, stops scrub mode and
scrub sources and previous sources, schedules every overlapping clip,
sets isPlaying and runs the first animation frame synchronously. -/
def masterPlayClick_scrub (pageWidth deviceNow : ℚ) (st : DAWState) :
    DAWState :=
  if st.isPlaying then updateCursorVisual pageWidth (stopAllSources st)
  else
    let cursorAtStart := st.projectCursorTime
    let startAt := deviceNow + SCHEDULING_DELAY
    let st1 := { st with
      projectCursorTimeAtPlayStart := cursorAtStart,
      projectStartTime := startAt - cursorAtStart }
    let st2 := stopAllSources (clearScrubSources (stopScrubMode st1))
    let st3 := { st2 with
      timelines := scheduleIntoTimelines startAt cursorAtStart st2.timelines,
      isPlaying := true }
    animateCursorDuringPlay pageWidth deviceNow st3

/-- The events of the single cooperative timeline of
src/unnamed/part_000: UI handlers, asynchronous completions and timer
callbacks.  Every mutation of the module state goes through one of
these. -/
inductive AppEvent where
  | recStart (idx : ℕ)
  | recDecoded (idx : ℕ) (buf : AudioBuffer)
  | dragDown (idx : ℕ) (x : ℚ)
  | dragMove (idx : ℕ) (x : ℚ)
  | dragUp (idx : ℕ)
  | seek (pageWidth t : ℚ)
  | playClick (pageWidth deviceNow : ℚ)
  | frame (pageWidth deviceNow : ℚ)
  | scrubStart (now : ℚ)
  | scrubTrigger (now : ℚ)
  | scrubStop
  | voiceEnded (item : ScrubItem)
  | watchdog (timerId : ℕ)

/-- The effect of each event on the module state, assembled from the
handler models above.  recStart mirrors the REC click (set startTime to
the cursor, enter recording) and recDecoded the decode completion
(commit the buffer, leave recording). -/
def applyEvent : AppEvent → DAWState → DAWState
  | .recStart idx, st =>
    modifyTrack idx (fun tl =>
      if tl.isRecording then tl
      else { tl with
        startTime := max 0 st.projectCursorTime, isRecording := true }) st
  | .recDecoded idx buf, st =>
    modifyTrack idx (fun tl =>
      { tl with buffer := some buf, isRecording := false }) st
  | .dragDown idx x, st =>
    modifyTrack idx (fun tl =>
      { tl with
        isDraggingTimeline := true, dragStartX := x,
        dragStartOffset := tl.startTime }) st
  | .dragMove idx x, st => modifyTrack idx (pointermoveDrag x) st
  | .dragUp idx, st =>
    modifyTrack idx (fun tl => { tl with isDraggingTimeline := false }) st
  | .seek pageWidth t, st => setProjectCursorTime pageWidth t st
  | .playClick pageWidth deviceNow, st =>
    masterPlayClick_scrub pageWidth deviceNow st
  | .frame pageWidth deviceNow, st =>
    animateCursorDuringPlay pageWidth deviceNow st
  | .scrubStart now, st => startScrubMode now st
  | .scrubTrigger now, st => performScrubAt now st.projectCursorTime st
  | .scrubStop, st => stopScrubMode st
  | .voiceEnded item, st => scrubVoiceEnded item st
  | .watchdog timerId, st => watchdogFire timerId st

/-- A timeline as initialized in createTimeline. -/
def initTimeline : Timeline :=
  { buffer := none, startTime := 0, isRecording := false,
    isDraggingTimeline := false, dragStartX := 0, dragStartOffset := 0,
    sourceNodes := [] }

/-- The module state right after the top-level initialization of
src/unnamed/part_000 (TIMELINE_COUNT = 10 timelines). -/
def initState : DAWState :=
  { isPlaying := false, projectStartTime := 0, projectCursorTime := 0,
    projectCursorTimeAtPlayStart := 0,
    timelines := List.replicate 10 initTimeline,
    currentPage := 0, animationId := none, isScrubbing := false,
    scrubRAF := none, lastPerformScrubAt := 0, activeScrubSources := [],
    pendingTimers := [], nextId := 0 }

/-- States reachable on the cooperative event timeline. -/
inductive Reachable : DAWState → Prop
  | init : Reachable initState
  | step (e : AppEvent) (s : DAWState) : Reachable s → Reachable (applyEvent e s)

/-- The two-attempt device start sequence for one scrub slice
(src/unnamed/part_000 lines 414-418): try
start(0, max(0, localPos), SCRUB_SLICE_SEC); when the device rejects it,
retry start(0, max(0, localPos), SCRUB_SLICE_SEC / 2).  rejects models
which (when, offset, duration) requests the device refuses; the result
lists the attempted calls in order. -/
def scrubStartAttempts (rejects : ℚ → ℚ → ℚ → Bool) (localPos : ℚ) :
    List (ℚ × ℚ × ℚ) :=
  if rejects 0 (max 0 localPos) SCRUB_SLICE_SEC then
    [(0, max 0 localPos, SCRUB_SLICE_SEC),
     (0, max 0 localPos, SCRUB_SLICE_SEC / 2)]
  else [(0, max 0 localPos, SCRUB_SLICE_SEC)]

/-- The masterPlay scheduling loop under device rejections (the per-voice
try/catch of src/unnamed/part_000 lines 544-552 and src/app.js lines
437-445): a rejected start is logged and that voice skipped; the loop
continues with the remaining tracks.  Returns the (track index, voice)
pairs whose start call the device accepted, in track order. -/
def scheduleVoices (rejects : ScheduledVoice → Bool) (startAt playFrom : ℚ) :
    List Timeline → ℕ → List (ℕ × ScheduledVoice)
  | [], _ => []
  | tl :: rest, i =>
    match scheduleTimeline startAt playFrom tl with
    | none => scheduleVoices rejects startAt playFrom rest (i + 1)
    | some v =>
      if rejects v then scheduleVoices rejects startAt playFrom rest (i + 1)
      else (i, v) :: scheduleVoices rejects startAt playFrom rest (i + 1)

/-- A device that accepts every start request. -/
def rejectsNothing : ScheduledVoice → Bool := fun _ => false

/-- A device that rejects exactly the full-length scrub slice request,
forcing the catch branch. -/
def rejectFirstSlice : ℚ → ℚ → ℚ → Bool :=
  fun _ _ d => decide (d = SCRUB_SLICE_SEC)

/-- A playing state in which play started with the cursor at 2 and
startAt was 10 (so projectStartTime = 10 - 2 = 8). -/
def playingStateExample : DAWState :=
  { initState with
    isPlaying := true, projectStartTime := 8, projectCursorTime := 2,
    projectCursorTimeAtPlayStart := 2, animationId := some 0, nextId := 1 }

/-- A timeline that is mid-capture while its waveform is being dragged. -/
def recordingDragTimeline : Timeline :=
  { buffer := none, startTime := 0, isRecording := true,
    isDraggingTimeline := true, dragStartX := 0, dragStartOffset := 0,
    sourceNodes := [] }

/-- A playing state with one active full-playback voice. -/
def playingWithVoice : DAWState :=
  { initState with
    isPlaying := true,
    timelines :=
      [{ initTimeline with buffer := some ⟨1⟩, sourceNodes := [⟨0, 0⟩] }],
    animationId := some 0, nextId := 1 }

/-- The reachable state after one decode completion on track 0 and one
accepted scrub trigger at performance.now() = 50: one live scrub voice
with one pending watchdog timer. -/
def scrubbedState : DAWState :=
  applyEvent (.scrubTrigger 50) (applyEvent (.recDecoded 0 ⟨1⟩) initState)

/-- Every pending watchdog timer belongs to a voice currently in the
active scrub set: the safety property behind claim C10. -/
def ScrubTimersValid (st : DAWState) : Prop :=
  ∀ t ∈ st.pendingTimers, ∃ i ∈ st.activeScrubSources, i.timerId = t

/-- All concurrently active scrub voices were created by the same
performScrubAt trigger: the single-generation property behind C3. -/
def SameGeneration (st : DAWState) : Prop :=
  ∀ i ∈ st.activeScrubSources, ∀ j ∈ st.activeScrubSources,
    i.createdAt = j.createdAt

/-- updateCursorVisual only replaces the page index by the page of the
current cursor position; every other field is untouched. -/
theorem updateCursorVisual_eta (pw : ℚ) (s : DAWState) :
    updateCursorVisual pw s
      = { s with
          currentPage := ⌊s.projectCursorTime * PIXELS_PER_SECOND / pw⌋ } := by
  simp only [updateCursorVisual]
  split
  · rfl
  · rename_i h
    rw [not_ne_iff] at h
    rw [h]

theorem ucv_pendingTimers (pw : ℚ) (s : DAWState) :
    (updateCursorVisual pw s).pendingTimers = s.pendingTimers := by
  rw [updateCursorVisual_eta]

theorem ucv_activeScrubSources (pw : ℚ) (s : DAWState) :
    (updateCursorVisual pw s).activeScrubSources = s.activeScrubSources := by
  rw [updateCursorVisual_eta]

theorem ucv_timelines (pw : ℚ) (s : DAWState) :
    (updateCursorVisual pw s).timelines = s.timelines := by
  rw [updateCursorVisual_eta]

theorem ucv_isPlaying (pw : ℚ) (s : DAWState) :
    (updateCursorVisual pw s).isPlaying = s.isPlaying := by
  rw [updateCursorVisual_eta]

theorem ucv_projectStartTime (pw : ℚ) (s : DAWState) :
    (updateCursorVisual pw s).projectStartTime = s.projectStartTime := by
  rw [updateCursorVisual_eta]

theorem ucv_projectCursorTime (pw : ℚ) (s : DAWState) :
    (updateCursorVisual pw s).projectCursorTime = s.projectCursorTime := by
  rw [updateCursorVisual_eta]

theorem ucv_lastPerformScrubAt (pw : ℚ) (s : DAWState) :
    (updateCursorVisual pw s).lastPerformScrubAt = s.lastPerformScrubAt := by
  rw [updateCursorVisual_eta]

/-- setProjectCursorTime only replaces the cursor by its clamped input
and the page index by the page of the new cursor position. -/
theorem setProjectCursorTime_eta (pw t : ℚ) (s : DAWState) :
    setProjectCursorTime pw t s
      = { s with
          projectCursorTime := max 0 (min t TRACK_DURATION_SECONDS),
          currentPage :=
            ⌊max 0 (min t TRACK_DURATION_SECONDS) * PIXELS_PER_SECOND / pw⌋ } := by
  unfold setProjectCursorTime
  rw [updateCursorVisual_eta]

theorem stopAll_pendingTimers (s : DAWState) :
    (stopAllSources s).pendingTimers = s.pendingTimers := rfl

theorem stopAll_activeScrubSources (s : DAWState) :
    (stopAllSources s).activeScrubSources = s.activeScrubSources := rfl

theorem stopAll_lastPerformScrubAt (s : DAWState) :
    (stopAllSources s).lastPerformScrubAt = s.lastPerformScrubAt := rfl

theorem stopAll_timelines_length (s : DAWState) :
    (stopAllSources s).timelines.length = s.timelines.length :=
  List.length_map _ _

theorem stopAll_projectStartTime (s : DAWState) :
    (stopAllSources s).projectStartTime = s.projectStartTime := rfl

theorem stopAll_cursorAtPlayStart (s : DAWState) :
    (stopAllSources s).projectCursorTimeAtPlayStart
      = s.projectCursorTimeAtPlayStart := rfl

theorem ucv_cursorAtPlayStart (pw : ℚ) (s : DAWState) :
    (updateCursorVisual pw s).projectCursorTimeAtPlayStart
      = s.projectCursorTimeAtPlayStart := by
  rw [updateCursorVisual_eta]

theorem clearScrub_activeScrubSources (s : DAWState) :
    (clearScrubSources s).activeScrubSources = [] := rfl

theorem clearScrub_timelines (s : DAWState) :
    (clearScrubSources s).timelines = s.timelines := rfl

theorem stopScrubMode_activeScrubSources (s : DAWState) :
    (stopScrubMode s).activeScrubSources = [] := rfl

theorem stopScrubMode_timelines (s : DAWState) :
    (stopScrubMode s).timelines = s.timelines := rfl

theorem clearScrub_projectStartTime (s : DAWState) :
    (clearScrubSources s).projectStartTime = s.projectStartTime := rfl

theorem clearScrub_cursorAtPlayStart (s : DAWState) :
    (clearScrubSources s).projectCursorTimeAtPlayStart
      = s.projectCursorTimeAtPlayStart := rfl

theorem stopScrubMode_projectStartTime (s : DAWState) :
    (stopScrubMode s).projectStartTime = s.projectStartTime := rfl

theorem stopScrubMode_cursorAtPlayStart (s : DAWState) :
    (stopScrubMode s).projectCursorTimeAtPlayStart
      = s.projectCursorTimeAtPlayStart := rfl

/-- Transport of ScrubTimersValid along equal scrub fields. -/
theorem valid_congr {s s' : DAWState}
    (hp : s'.pendingTimers = s.pendingTimers)
    (ha : s'.activeScrubSources = s.activeScrubSources)
    (h : ScrubTimersValid s) : ScrubTimersValid s' := by
  intro t ht
  obtain ⟨i, hi, hit⟩ := h t (hp ▸ ht)
  exact ⟨i, ha ▸ hi, hit⟩

/-- Transport of SameGeneration along an equal active set. -/
theorem gen_congr {s s' : DAWState}
    (ha : s'.activeScrubSources = s.activeScrubSources)
    (h : SameGeneration s) : SameGeneration s' := by
  intro i hi j hj
  exact h i (ha ▸ hi) j (ha ▸ hj)

/-- When every pending watchdog belongs to an active voice,
clearScrubSources clears the whole pending set together with the whole
active set. -/
theorem clearScrubSources_empty (s : DAWState) (h : ScrubTimersValid s) :
    (clearScrubSources s).pendingTimers = []
    ∧ (clearScrubSources s).activeScrubSources = [] := by
  refine ⟨List.filter_eq_nil_iff.mpr ?_, rfl⟩
  intro t ht
  obtain ⟨i, hi, hit⟩ := h t ht
  simp only [List.all_eq_true, bne_iff_ne, ne_eq, not_forall]
  exact ⟨i, hi, by simp [hit]⟩

theorem clearScrubSources_valid (s : DAWState) (h : ScrubTimersValid s) :
    ScrubTimersValid (clearScrubSources s) := by
  intro t ht
  rw [(clearScrubSources_empty s h).1] at ht
  exact absurd ht (List.not_mem_nil t)

theorem clearScrubSources_gen (s : DAWState) :
    SameGeneration (clearScrubSources s) := by
  intro i hi
  exact absurd hi (List.not_mem_nil i)

/-- Clearing when no scrub voice is active leaves the pending timers
untouched (the forEach body runs zero times). -/
theorem clearScrubSources_pending_of_no_active (s : DAWState)
    (h : s.activeScrubSources = []) :
    (clearScrubSources s).pendingTimers = s.pendingTimers := by
  simp [clearScrubSources, h]

theorem stopScrubMode_empty (s : DAWState) (h : ScrubTimersValid s) :
    (stopScrubMode s).pendingTimers = []
    ∧ (stopScrubMode s).activeScrubSources = [] :=
  clearScrubSources_empty { s with isScrubbing := false, scrubRAF := none } h

theorem spawnScrubVoices_lastPerformScrubAt (now ct : ℚ)
    (tls : List Timeline) (s : DAWState) :
    (spawnScrubVoices now ct tls s).lastPerformScrubAt
      = s.lastPerformScrubAt := by
  induction tls generalizing s with
  | nil => rfl
  | cons tl rest ih =>
    unfold spawnScrubVoices
    split
    · rw [ih]
    · exact ih s

theorem spawnScrubVoices_timelines (now ct : ℚ)
    (tls : List Timeline) (s : DAWState) :
    (spawnScrubVoices now ct tls s).timelines = s.timelines := by
  induction tls generalizing s with
  | nil => rfl
  | cons tl rest ih =>
    unfold spawnScrubVoices
    split
    · rw [ih]
    · exact ih s

theorem spawnScrubVoices_isPlaying (now ct : ℚ)
    (tls : List Timeline) (s : DAWState) :
    (spawnScrubVoices now ct tls s).isPlaying = s.isPlaying := by
  induction tls generalizing s with
  | nil => rfl
  | cons tl rest ih =>
    unfold spawnScrubVoices
    split
    · rw [ih]
    · exact ih s

theorem spawnScrubVoices_valid (now ct : ℚ) (tls : List Timeline)
    (s : DAWState) (h : ScrubTimersValid s) :
    ScrubTimersValid (spawnScrubVoices now ct tls s) := by
  induction tls generalizing s with
  | nil => exact h
  | cons tl rest ih =>
    unfold spawnScrubVoices
    split
    · apply ih
      intro t ht
      rcases List.mem_append.mp ht with h1 | h2
      · obtain ⟨i, hi, hit⟩ := h t h1
        exact ⟨i, List.mem_append.mpr (Or.inl hi), hit⟩
      · have h3 := List.mem_singleton.mp h2
        subst h3
        exact ⟨⟨s.nextId, s.nextId + 1, now⟩,
          List.mem_append.mpr (Or.inr (List.mem_singleton.mpr rfl)), rfl⟩
    · exact ih s h

theorem spawnScrubVoices_gen (now ct : ℚ) (tls : List Timeline)
    (s : DAWState) (h : ∀ i ∈ s.activeScrubSources, i.createdAt = now) :
    ∀ i ∈ (spawnScrubVoices now ct tls s).activeScrubSources,
      i.createdAt = now := by
  induction tls generalizing s with
  | nil => exact h
  | cons tl rest ih =>
    unfold spawnScrubVoices
    split
    · apply ih
      intro i hi
      rcases List.mem_append.mp hi with h1 | h2
      · exact h i h1
      · rw [List.mem_singleton.mp h2]
    · exact ih s h

theorem performScrubAt_valid (now ct : ℚ) (s : DAWState)
    (h : ScrubTimersValid s) :
    ScrubTimersValid (performScrubAt now ct s) := by
  simp only [performScrubAt]
  split
  · exact h
  · split
    · exact h
    · apply spawnScrubVoices_valid
      exact clearScrubSources_valid { s with lastPerformScrubAt := now } h

theorem performScrubAt_gen (now ct : ℚ) (s : DAWState)
    (h : SameGeneration s) :
    SameGeneration (performScrubAt now ct s) := by
  simp only [performScrubAt]
  split
  · exact h
  · split
    · exact h
    · intro i hi j hj
      have g := spawnScrubVoices_gen now ct
        ({ s with lastPerformScrubAt := now }).timelines
        (clearScrubSources { s with lastPerformScrubAt := now })
        (fun i hi => absurd hi (List.not_mem_nil i))
      rw [g i hi, g j hj]

theorem performScrubAt_timelines (now ct : ℚ) (s : DAWState) :
    (performScrubAt now ct s).timelines = s.timelines := by
  simp only [performScrubAt]
  split
  · rfl
  · split
    · rfl
    · rw [spawnScrubVoices_timelines]
      rfl

theorem performScrubAt_accepted_last (now ct : ℚ) (s : DAWState)
    (h : ¬ (now - s.lastPerformScrubAt < SCRUB_THROTTLE_MS)) :
    (performScrubAt now ct s).lastPerformScrubAt = now := by
  simp only [performScrubAt]
  rw [if_neg h]
  split
  · rfl
  · rw [spawnScrubVoices_lastPerformScrubAt]
    rfl

theorem animate_pendingTimers (pw d : ℚ) (s : DAWState) :
    (animateCursorDuringPlay pw d s).pendingTimers = s.pendingTimers := by
  simp only [animateCursorDuringPlay]
  split
  · rfl
  · split
    · rw [stopAll_pendingTimers, ucv_pendingTimers]
    · rw [ucv_pendingTimers]

theorem animate_activeScrubSources (pw d : ℚ) (s : DAWState) :
    (animateCursorDuringPlay pw d s).activeScrubSources
      = s.activeScrubSources := by
  simp only [animateCursorDuringPlay]
  split
  · rfl
  · split
    · rw [stopAll_activeScrubSources, ucv_activeScrubSources]
    · rw [ucv_activeScrubSources]

theorem animate_lastPerformScrubAt (pw d : ℚ) (s : DAWState) :
    (animateCursorDuringPlay pw d s).lastPerformScrubAt
      = s.lastPerformScrubAt := by
  simp only [animateCursorDuringPlay]
  split
  · rfl
  · split
    · rw [stopAll_lastPerformScrubAt, ucv_lastPerformScrubAt]
    · rw [ucv_lastPerformScrubAt]

theorem animate_timelines_length (pw d : ℚ) (s : DAWState) :
    (animateCursorDuringPlay pw d s).timelines.length
      = s.timelines.length := by
  simp only [animateCursorDuringPlay]
  split
  · rfl
  · split
    · rw [stopAll_timelines_length, ucv_timelines]
    · rw [ucv_timelines]

theorem animate_projectStartTime (pw d : ℚ) (s : DAWState) :
    (animateCursorDuringPlay pw d s).projectStartTime
      = s.projectStartTime := by
  simp only [animateCursorDuringPlay]
  split
  · rfl
  · split
    · rw [stopAll_projectStartTime, ucv_projectStartTime]
    · rw [ucv_projectStartTime]

theorem animate_cursorAtPlayStart (pw d : ℚ) (s : DAWState) :
    (animateCursorDuringPlay pw d s).projectCursorTimeAtPlayStart
      = s.projectCursorTimeAtPlayStart := by
  simp only [animateCursorDuringPlay]
  split
  · rfl
  · split
    · rw [stopAll_cursorAtPlayStart, ucv_cursorAtPlayStart]
    · rw [ucv_cursorAtPlayStart]

theorem setAt_length (f : Timeline → Timeline) (idx : ℕ)
    (l : List Timeline) :
    (setAt f idx l).length = l.length := by
  induction l generalizing idx with
  | nil => cases idx <;> rfl
  | cons tl rest ih =>
    cases idx with
    | zero => rfl
    | succ n => simpa [setAt] using ih n

theorem modifyTrack_timelines_length (idx : ℕ) (f : Timeline → Timeline)
    (s : DAWState) :
    (modifyTrack idx f s).timelines.length = s.timelines.length :=
  setAt_length f idx s.timelines

theorem scheduleIntoTimelines_length (startAt playFrom : ℚ)
    (tls : List Timeline) :
    (scheduleIntoTimelines startAt playFrom tls).length = tls.length :=
  List.length_map _ _

theorem scrubVoiceEnded_valid (item : ScrubItem) (s : DAWState)
    (h : ScrubTimersValid s) :
    ScrubTimersValid (scrubVoiceEnded item s) := by
  intro t ht
  obtain ⟨htp, hne⟩ := List.mem_filter.mp ht
  obtain ⟨i, hi, hit⟩ := h t htp
  have hineq : i ≠ item := by
    intro hcontra
    subst hcontra
    rw [hit] at hne
    simp at hne
  exact ⟨i, List.mem_filter.mpr ⟨hi, by simp [bne_iff_ne, hineq]⟩, hit⟩

theorem scrubVoiceEnded_gen (item : ScrubItem) (s : DAWState)
    (h : SameGeneration s) :
    SameGeneration (scrubVoiceEnded item s) := by
  intro i hi j hj
  exact h i (List.mem_filter.mp hi).1 j (List.mem_filter.mp hj).1

theorem watchdogFire_valid (timerId : ℕ) (s : DAWState)
    (h : ScrubTimersValid s) :
    ScrubTimersValid (watchdogFire timerId s) := by
  intro t ht
  exact h t (List.mem_filter.mp ht).1

theorem playClick_of_playing (pw d : ℚ) (s : DAWState)
    (hp : s.isPlaying = true) :
    masterPlayClick_scrub pw d s = updateCursorVisual pw (stopAllSources s) := by
  simp only [masterPlayClick_scrub, hp, if_true]

/-- The non-playing branch of the part_000 play click ends with no active
scrub voice and no pending watchdog. -/
theorem playClick_scrub_fields_of_stopped (pw d : ℚ) (s : DAWState)
    (hp : s.isPlaying = false) (hv : ScrubTimersValid s) :
    (masterPlayClick_scrub pw d s).pendingTimers = []
    ∧ (masterPlayClick_scrub pw d s).activeScrubSources = [] := by
  simp only [masterPlayClick_scrub, hp, Bool.false_eq_true, if_false]
  constructor
  · simp only [animate_pendingTimers, stopAll_pendingTimers]
    rw [clearScrubSources_pending_of_no_active _ (stopScrubMode_activeScrubSources _)]
    exact (stopScrubMode_empty _ hv).1
  · simp only [animate_activeScrubSources, stopAll_activeScrubSources,
      clearScrub_activeScrubSources]

theorem playClick_timelines_length (pw d : ℚ) (s : DAWState) :
    (masterPlayClick_scrub pw d s).timelines.length
      = s.timelines.length := by
  simp only [masterPlayClick_scrub]
  split
  · rw [ucv_timelines, stopAll_timelines_length]
  · simp only [animate_timelines_length, scheduleIntoTimelines_length,
      stopAll_timelines_length, clearScrub_timelines, stopScrubMode_timelines]

theorem startScrubMode_valid (now : ℚ) (s : DAWState)
    (h : ScrubTimersValid s) :
    ScrubTimersValid (startScrubMode now s) := by
  simp only [startScrubMode]
  have h1 : ScrubTimersValid (if s.isPlaying then stopAllSources s else s) := by
    split
    · exact valid_congr (stopAll_pendingTimers s) (stopAll_activeScrubSources s) h
    · exact h
  exact valid_congr rfl rfl (performScrubAt_valid now _ _ h1)

theorem startScrubMode_gen (now : ℚ) (s : DAWState)
    (h : SameGeneration s) :
    SameGeneration (startScrubMode now s) := by
  simp only [startScrubMode]
  have h1 : SameGeneration (if s.isPlaying then stopAllSources s else s) := by
    split
    · exact gen_congr (stopAll_activeScrubSources s) h
    · exact h
  exact gen_congr rfl (performScrubAt_gen now _ _ h1)

theorem startScrubMode_timelines_length (now : ℚ) (s : DAWState) :
    (startScrubMode now s).timelines.length = s.timelines.length := by
  simp only [startScrubMode, performScrubAt_timelines]
  split
  · exact stopAll_timelines_length s
  · rfl

/-- The three global invariants of every reachable state of the
cooperative event loop: pending watchdogs always belong to active scrub
voices, all active scrub voices stem from one trigger, and the timelines
array keeps its initial length TIMELINE_COUNT = 10. -/
theorem reachable_invariants (st : DAWState) (hr : Reachable st) :
    ScrubTimersValid st ∧ SameGeneration st ∧ st.timelines.length = 10 := by
  induction hr with
  | init =>
    refine ⟨?_, ?_, rfl⟩
    · intro t ht
      exact absurd ht (List.not_mem_nil t)
    · intro i hi
      exact absurd hi (List.not_mem_nil i)
  | step e s hs ih =>
    obtain ⟨ihv, ihg, ihl⟩ := ih
    cases e with
    | recStart idx =>
      simp only [applyEvent]
      exact ⟨ihv, ihg, by
        simpa [modifyTrack_timelines_length] using ihl⟩
    | recDecoded idx buf =>
      simp only [applyEvent]
      exact ⟨ihv, ihg, by
        simpa [modifyTrack_timelines_length] using ihl⟩
    | dragDown idx x =>
      simp only [applyEvent]
      exact ⟨ihv, ihg, by
        simpa [modifyTrack_timelines_length] using ihl⟩
    | dragMove idx x =>
      simp only [applyEvent]
      exact ⟨ihv, ihg, by
        simpa [modifyTrack_timelines_length] using ihl⟩
    | dragUp idx =>
      simp only [applyEvent]
      exact ⟨ihv, ihg, by
        simpa [modifyTrack_timelines_length] using ihl⟩
    | seek pw t =>
      simp only [applyEvent]
      have h := setProjectCursorTime_eta pw t s
      refine ⟨?_, ?_, ?_⟩
      · exact valid_congr (by rw [h]) (by rw [h]) ihv
      · exact gen_congr (by rw [h]) ihg
      · rw [h]
        exact ihl
    | playClick pw d =>
      simp only [applyEvent]
      by_cases hp : s.isPlaying
      · have h := playClick_of_playing pw d s hp
        refine ⟨?_, ?_, ?_⟩
        · exact valid_congr
            (by rw [h, ucv_pendingTimers, stopAll_pendingTimers])
            (by rw [h, ucv_activeScrubSources, stopAll_activeScrubSources]) ihv
        · exact gen_congr
            (by rw [h, ucv_activeScrubSources, stopAll_activeScrubSources]) ihg
        · rw [playClick_timelines_length]
          exact ihl
      · have hp' : s.isPlaying = false := by simpa using hp
        obtain ⟨h1, h2⟩ := playClick_scrub_fields_of_stopped pw d s hp' ihv
        refine ⟨?_, ?_, ?_⟩
        · intro t ht
          rw [h1] at ht
          exact absurd ht (List.not_mem_nil t)
        · intro i hi
          rw [h2] at hi
          exact absurd hi (List.not_mem_nil i)
        · rw [playClick_timelines_length]
          exact ihl
    | frame pw d =>
      simp only [applyEvent]
      refine ⟨?_, ?_, ?_⟩
      · exact valid_congr (animate_pendingTimers pw d s)
          (animate_activeScrubSources pw d s) ihv
      · exact gen_congr (animate_activeScrubSources pw d s) ihg
      · rw [animate_timelines_length]
        exact ihl
    | scrubStart now =>
      simp only [applyEvent]
      refine ⟨startScrubMode_valid now s ihv, startScrubMode_gen now s ihg, ?_⟩
      rw [startScrubMode_timelines_length]
      exact ihl
    | scrubTrigger now =>
      simp only [applyEvent]
      refine ⟨performScrubAt_valid now _ s ihv, performScrubAt_gen now _ s ihg, ?_⟩
      rw [performScrubAt_timelines]
      exact ihl
    | scrubStop =>
      simp only [applyEvent]
      refine ⟨?_, ?_, ?_⟩
      · exact clearScrubSources_valid _ ihv
      · exact clearScrubSources_gen _
      · rw [stopScrubMode_timelines]
        exact ihl
    | voiceEnded item =>
      simp only [applyEvent]
      exact ⟨scrubVoiceEnded_valid item s ihv, scrubVoiceEnded_gen item s ihg, ihl⟩
    | watchdog timerId =>
      simp only [applyEvent]
      exact ⟨watchdogFire_valid timerId s ihv, ihg, ihl⟩

theorem performScrubAt_throttled (now ct : ℚ) (s : DAWState)
    (h : now - s.lastPerformScrubAt < SCRUB_THROTTLE_MS) :
    performScrubAt now ct s = s := by
  simp only [performScrubAt]
  rw [if_pos h]

/-- After an accepted (non-throttled) trigger on a non-empty timelines
array, every active scrub voice carries the trigger time stamp. -/
theorem performScrubAt_accepted_gen (now ct : ℚ) (s : DAWState)
    (h : ¬ (now - s.lastPerformScrubAt < SCRUB_THROTTLE_MS))
    (hne : s.timelines.isEmpty = false) :
    ∀ i ∈ (performScrubAt now ct s).activeScrubSources,
      i.createdAt = now := by
  simp only [performScrubAt]
  rw [if_neg h]
  rw [if_neg (by simp [hne])]
  exact spawnScrubVoices_gen now ct _ _
    (fun i hi => absurd hi (List.not_mem_nil i))

theorem stopAll_isPlaying (s : DAWState) :
    (stopAllSources s).isPlaying = false := rfl

/-- The else branch of one animateCursorDuringPlay step, in closed form:
cursor set to the elapsed device time, page recomputed, next frame
requested. -/
theorem animate_eta_of_running (pw d : ℚ) (s : DAWState)
    (hplay : s.isPlaying = true)
    (h : ¬ (TRACK_DURATION_SECONDS ≤ d - s.projectStartTime)) :
    animateCursorDuringPlay pw d s
      = { s with
          projectCursorTime := d - s.projectStartTime,
          currentPage :=
            ⌊(d - s.projectStartTime) * PIXELS_PER_SECOND / pw⌋,
          animationId := some s.nextId,
          nextId := s.nextId + 1 } := by
  simp only [animateCursorDuringPlay, hplay, Bool.true_eq_false, if_false]
  rw [if_neg h]
  rw [updateCursorVisual_eta]

/-- Claim C1: for a timeline holding a non-empty clip with start s and
duration d, and a cursor time t, the masterPlay scheduling loop creates
exactly one voice iff t < s + d; when s ≤ t the voice starts at
deviceNow + 0.05 with in-buffer offset max(0, t - s); when s > t it
starts at deviceNow + 0.05 + (s - t) with zero offset. -/
theorem playFrom_overlap_correct
    (deviceNow t s d : ℚ) (tl : Timeline)
    (hbuf : tl.buffer = some ⟨d⟩) (hs : tl.startTime = s) (hd : 0 < d) :
    ((scheduleTimeline (deviceNow + SCHEDULING_DELAY) t tl).isSome ↔ t < s + d)
    ∧ (s ≤ t → t < s + d →
        scheduleTimeline (deviceNow + SCHEDULING_DELAY) t tl
          = some ⟨deviceNow + SCHEDULING_DELAY, max 0 (t - s)⟩)
    ∧ (t < s →
        scheduleTimeline (deviceNow + SCHEDULING_DELAY) t tl
          = some ⟨deviceNow + SCHEDULING_DELAY + (s - t), 0⟩) := by
  subst hs
  unfold scheduleTimeline
  rw [hbuf]
  simp only
  constructor
  · by_cases hend : tl.startTime + d ≤ t
    · simp [hend, not_lt.mpr hend]
    · push_neg at hend
      by_cases hstart : tl.startTime ≤ t <;> simp [hstart, hend, not_le.mpr hend]
  constructor
  · intro hle hlt
    have hend : ¬ (tl.startTime + d ≤ t) := not_le.mpr hlt
    simp [hend, hle]
  · intro hlt
    have hend : ¬ (tl.startTime + d ≤ t) := by
      push_neg
      linarith
    have hstart : ¬ (tl.startTime ≤ t) := not_le.mpr hlt
    simp [hend, hstart]

/-- Witness for playFrom_overlap_correct: the spec scenario, clip at
projectStartTime 2 with duration 3, cursor 4 hitting the first branch. -/
theorem playFrom_overlap_correct_witness :
    (let tl : Timeline := ⟨some ⟨3⟩, 2, false, false, 0, 0, []⟩
     ((scheduleTimeline (10 + SCHEDULING_DELAY) 4 tl).isSome ↔ (4:ℚ) < 2 + 3)
     ∧ ((2:ℚ) ≤ 4 → (4:ℚ) < 2 + 3 →
        scheduleTimeline (10 + SCHEDULING_DELAY) 4 tl
          = some ⟨10 + SCHEDULING_DELAY, max 0 (4 - 2)⟩)
     ∧ ((4:ℚ) < 2 →
        scheduleTimeline (10 + SCHEDULING_DELAY) 4 tl
          = some ⟨10 + SCHEDULING_DELAY + (2 - 4), 0⟩)) :=
  playFrom_overlap_correct 10 4 2 3 ⟨some ⟨3⟩, 2, false, false, 0, 0, []⟩
    rfl rfl (by norm_num)

/-- Claim C2 (code bug): at the frame update the cursor is set to
deviceNow - projectStartTime, but getProjectCursorTime while playing
returns that value with projectCursorTimeAtPlayStart added AGAIN
(projectStartTime already absorbed it), so a read disagrees with the
frame value whenever playback started with the cursor away from zero.
Here play started at cursor 2 (projectStartTime = 10 - 2 = 8); at
deviceNow = 11 the frame value is 3 but getProjectCursorTime returns 5. -/
theorem getProjectCursorTime_double_offset :
    (animateCursorDuringPlay 1000 11 playingStateExample).projectCursorTime = 3
    ∧ 11 - playingStateExample.projectStartTime = 3
    ∧ getProjectCursorTime 11 playingStateExample = 5
    ∧ (5:ℚ) ≠ 3 := by
  refine ⟨?_, ?_, ?_, by norm_num⟩
  · rw [animate_eta_of_running 1000 11 playingStateExample rfl
      (by norm_num [playingStateExample, initState, TRACK_DURATION_SECONDS])]
    show (11:ℚ) - 8 = 3
    norm_num
  · show (11:ℚ) - 8 = 3
    norm_num
  · show max 0 ((11:ℚ) - 8 + 2) = 5
    norm_num

/-- Claim C4: stopAllSources and clearScrubSources are idempotent and are
no-ops on a state with nothing to stop; both are total functions (the
try/catch swallows the stop of an already-ended voice). -/
theorem stopAll_endScrub_idempotent (st : DAWState) :
    stopAllSources (stopAllSources st) = stopAllSources st
    ∧ clearScrubSources (clearScrubSources st) = clearScrubSources st
    ∧ ((∀ tl ∈ st.timelines, tl.sourceNodes = []) → st.animationId = none →
        st.isPlaying = false → stopAllSources st = st)
    ∧ (st.activeScrubSources = [] → clearScrubSources st = st) := by
  refine ⟨?_, ?_, ?_, ?_⟩
  · simp [stopAllSources, List.map_map, Function.comp_def]
  · simp [clearScrubSources, List.filter_true]
  · intro h1 h2 h3
    cases st with
    | mk ip pst pct pcaps tls cp aid isb raf lps acts pend nid =>
      simp only [stopAllSources]
      simp only at h1 h2 h3
      subst h2
      subst h3
      congr 1
      have hid : ∀ tl ∈ tls,
          (fun tl => { tl with sourceNodes := ([] : List ScheduledVoice) }) tl
            = id tl := by
        intro tl htl
        show ({ tl with sourceNodes := [] } : Timeline) = tl
        rw [← h1 tl htl]
      rw [List.map_congr_left hid, List.map_id]
  · intro h
    cases st with
    | mk ip pst pct pcaps tls cp aid isb raf lps acts pend nid =>
      simp only at h
      subst h
      simp [clearScrubSources, List.filter_true]

/-- Witness for stopAll_endScrub_idempotent at the initial state, where
zero voices are active. -/
theorem stopAll_endScrub_idempotent_witness :
    stopAllSources (stopAllSources initState) = stopAllSources initState
    ∧ clearScrubSources (clearScrubSources initState)
        = clearScrubSources initState
    ∧ stopAllSources initState = initState
    ∧ clearScrubSources initState = initState := by
  obtain ⟨h1, h2, h3, h4⟩ := stopAll_endScrub_idempotent initState
  exact ⟨h1, h2, h3 (by decide) rfl rfl, h4 rfl⟩

/-- Claim C8: the scrub throttle admits at most one trigger per
SCRUB_THROTTLE_MS window: a call within the window since the last
accepted trigger returns with the state completely unchanged, and after
an accepted trigger at time now every call before now + SCRUB_THROTTLE_MS
is such a no-op. -/
theorem scrub_throttle_backpressure (st : DAWState) (now ct now2 ct2 : ℚ) :
    (now - st.lastPerformScrubAt < SCRUB_THROTTLE_MS →
      performScrubAt now ct st = st)
    ∧ (SCRUB_THROTTLE_MS ≤ now - st.lastPerformScrubAt →
        (performScrubAt now ct st).lastPerformScrubAt = now
        ∧ (now2 - now < SCRUB_THROTTLE_MS →
            performScrubAt now2 ct2 (performScrubAt now ct st)
              = performScrubAt now ct st)) := by
  constructor
  · exact performScrubAt_throttled now ct st
  · intro h
    have hlast := performScrubAt_accepted_last now ct st (not_lt.mpr h)
    refine ⟨hlast, fun h2 => ?_⟩
    apply performScrubAt_throttled
    rw [hlast]
    exact h2

/-- Witness for scrub_throttle_backpressure: from the initial state, a
trigger at 50 is accepted and a follow-up at 60 changes nothing. -/
theorem scrub_throttle_backpressure_witness :
    (performScrubAt 50 0 initState).lastPerformScrubAt = 50
    ∧ performScrubAt 60 0 (performScrubAt 50 0 initState)
        = performScrubAt 50 0 initState := by
  have h := (scrub_throttle_backpressure initState 50 0 60 0).2
    (by norm_num [initState, SCRUB_THROTTLE_MS])
  exact ⟨h.1, h.2 (by norm_num [SCRUB_THROTTLE_MS])⟩

/-- Qualification facts for the two timeline shapes appearing in the
concrete runs below: cursor 0 hits the one-second clip on track 0 and
misses every empty track. -/
theorem scrubQualifies_eval :
    scrubQualifies 0 ⟨some ⟨1⟩, 0, false, false, 0, 0, []⟩ = true
    ∧ scrubQualifies 0 ⟨none, 0, false, false, 0, 0, []⟩ = false := by
  constructor
  · simp only [scrubQualifies]
    norm_num
  · rfl

/-- Evaluation of scrubbedState: one accepted trigger at 50 on a project
with one one-second clip on track 0 leaves exactly one scrub voice
(srcId 0, watchdog timer 1, created at 50) and its pending watchdog. -/
theorem scrubbedState_eval :
    scrubbedState
      = ⟨false, 0, 0, 0,
         [⟨some ⟨1⟩, 0, false, false, 0, 0, []⟩,
          ⟨none, 0, false, false, 0, 0, []⟩,
          ⟨none, 0, false, false, 0, 0, []⟩,
          ⟨none, 0, false, false, 0, 0, []⟩,
          ⟨none, 0, false, false, 0, 0, []⟩,
          ⟨none, 0, false, false, 0, 0, []⟩,
          ⟨none, 0, false, false, 0, 0, []⟩,
          ⟨none, 0, false, false, 0, 0, []⟩,
          ⟨none, 0, false, false, 0, 0, []⟩,
          ⟨none, 0, false, false, 0, 0, []⟩],
         0, none, false, none, 50, [⟨0, 1, 50⟩], [1], 2⟩ := by
  have h1 : applyEvent (.recDecoded 0 ⟨1⟩) initState
      = ⟨false, 0, 0, 0,
         [⟨some ⟨1⟩, 0, false, false, 0, 0, []⟩,
          ⟨none, 0, false, false, 0, 0, []⟩,
          ⟨none, 0, false, false, 0, 0, []⟩,
          ⟨none, 0, false, false, 0, 0, []⟩,
          ⟨none, 0, false, false, 0, 0, []⟩,
          ⟨none, 0, false, false, 0, 0, []⟩,
          ⟨none, 0, false, false, 0, 0, []⟩,
          ⟨none, 0, false, false, 0, 0, []⟩,
          ⟨none, 0, false, false, 0, 0, []⟩,
          ⟨none, 0, false, false, 0, 0, []⟩],
         0, none, false, none, 0, [], [], 0⟩ := rfl
  unfold scrubbedState
  rw [h1]
  simp only [applyEvent, performScrubAt]
  rw [if_neg (by norm_num [SCRUB_THROTTLE_MS])]
  rw [if_neg (by simp)]
  simp only [clearScrubSources, List.filter_nil, spawnScrubVoices,
    scrubQualifies_eval.1, scrubQualifies_eval.2, if_true,
    Bool.false_eq_true, if_false]
  norm_num

/-- Evaluation of a second accepted trigger at 100 on scrubbedState: the
previous generation is cleared (voice 0 ended, timer 1 cancelled) and
one fresh voice with srcId 2, timer 3, created at 100, remains. -/
theorem scrubbedState_second_trigger_eval :
    (performScrubAt 100 scrubbedState.projectCursorTime
        scrubbedState).activeScrubSources
      = [⟨2, 3, 100⟩] := by
  rw [scrubbedState_eval]
  simp only [performScrubAt]
  rw [if_neg (by norm_num [SCRUB_THROTTLE_MS])]
  rw [if_neg (by simp)]
  simp only [clearScrubSources, spawnScrubVoices,
    scrubQualifies_eval.1, scrubQualifies_eval.2, if_true,
    Bool.false_eq_true, if_false]
  norm_num

/-- Claim C3: on every reachable state, all concurrently active scrub
voices stem from one performScrubAt call (clearScrubSources forcibly
ends the previous generation before each accepted trigger), and right
after an accepted trigger every active voice carries the time stamp of
that trigger. -/
theorem scrub_single_generation (st : DAWState) (now : ℚ)
    (hr : Reachable st) :
    (∀ i ∈ st.activeScrubSources, ∀ j ∈ st.activeScrubSources,
        i.createdAt = j.createdAt)
    ∧ (SCRUB_THROTTLE_MS ≤ now - st.lastPerformScrubAt →
        ∀ i ∈ (performScrubAt now st.projectCursorTime st).activeScrubSources,
          i.createdAt = now) := by
  obtain ⟨hv, hg, hlen⟩ := reachable_invariants st hr
  refine ⟨hg, fun h => ?_⟩
  have hne : st.timelines.isEmpty = false := by
    cases h' : st.timelines with
    | nil => rw [h'] at hlen; simp at hlen
    | cons a l => rfl
  exact performScrubAt_accepted_gen now st.projectCursorTime st
    (not_lt.mpr h) hne

/-- Witness for scrub_single_generation: a second trigger at 100 on the
reachable scrubbedState is accepted and stamps every voice with 100. -/
theorem scrub_single_generation_witness :
    (⟨2, 3, 100⟩ : ScrubItem).createdAt = 100 :=
  (scrub_single_generation scrubbedState 100
    (Reachable.step _ _ (Reachable.step _ _ Reachable.init))).2
    (by rw [scrubbedState_eval]; norm_num [SCRUB_THROTTLE_MS])
    ⟨2, 3, 100⟩
    (by rw [scrubbedState_second_trigger_eval]
        exact List.mem_singleton.mpr rfl)

/-- Claim C10: on every reachable state each pending watchdog timer
belongs to a voice currently in the active scrub set (so no watchdog can
fire for a removed voice); clearScrubSources cancels every cleared
watchdog together with the whole active set, and the natural-end
callback cancels its own watchdog and removes exactly its voice. -/
theorem scrub_watchdog_never_stale (st : DAWState) (item : ScrubItem)
    (hr : Reachable st) :
    (∀ t ∈ st.pendingTimers, ∃ i ∈ st.activeScrubSources, i.timerId = t)
    ∧ (clearScrubSources st).pendingTimers = []
    ∧ (clearScrubSources st).activeScrubSources = []
    ∧ item.timerId ∉ (scrubVoiceEnded item st).pendingTimers
    ∧ (scrubVoiceEnded item st).activeScrubSources
        = st.activeScrubSources.filter (fun i => i != item) := by
  have hv := (reachable_invariants st hr).1
  refine ⟨hv, (clearScrubSources_empty st hv).1, rfl, ?_, rfl⟩
  intro hmem
  have h2 := (List.mem_filter.mp hmem).2
  simp at h2

/-- Witness for scrub_watchdog_never_stale: on scrubbedState the pending
watchdog 1 indeed belongs to an active voice. -/
theorem scrub_watchdog_never_stale_witness :
    ∃ i ∈ scrubbedState.activeScrubSources, i.timerId = 1 :=
  (scrub_watchdog_never_stale scrubbedState ⟨0, 1, 50⟩
    (Reachable.step _ _ (Reachable.step _ _ Reachable.init))).1 1
    (by rw [scrubbedState_eval]; exact List.mem_singleton.mpr rfl)

/-- Claim C5 counterexample: the drag handler applies no capture guard.
On a track that is mid-capture (isRecording = true) and being dragged, a
pointer move to x = 100 silently changes startTime from 0 to 2: there is
no InvalidState failure and the start time does not stay unchanged, so
the claim is false at this input. -/
theorem setStartTime_capture_guard_counterexample :
    recordingDragTimeline.isRecording = true
    ∧ recordingDragTimeline.startTime = 0
    ∧ (pointermoveDrag 100 recordingDragTimeline).startTime = 2 := by
  refine ⟨rfl, rfl, ?_⟩
  show max 0 (0 + (100 - 0) / PIXELS_PER_SECOND) = 2
  norm_num [PIXELS_PER_SECOND]

/-- Claim C5 amended: while a drag is active the pointermove handler
always sets startTime = max(0, dragStartOffset + dx / PIXELS_PER_SECOND)
regardless of the capture or playback state of the track (there is no
InvalidState guard); without an active drag the handler is a no-op. -/
theorem drag_mutates_startTime_unconditionally (x : ℚ) (tl : Timeline)
    (h : tl.isDraggingTimeline = true) :
    (pointermoveDrag x tl).startTime
      = max 0 (tl.dragStartOffset + (x - tl.dragStartX) / PIXELS_PER_SECOND)
    ∧ (pointermoveDrag x tl).isRecording = tl.isRecording
    ∧ (∀ tl2 : Timeline, tl2.isDraggingTimeline = false →
        pointermoveDrag x tl2 = tl2) := by
  refine ⟨?_, ?_, fun tl2 h2 => ?_⟩
  · simp [pointermoveDrag, h]
  · simp [pointermoveDrag, h]
  · simp [pointermoveDrag, h2]

/-- Witness for drag_mutates_startTime_unconditionally on the
mid-capture dragging track. -/
theorem drag_mutates_startTime_unconditionally_witness :
    (pointermoveDrag 100 recordingDragTimeline).startTime
      = max 0 (recordingDragTimeline.dragStartOffset
          + (100 - recordingDragTimeline.dragStartX) / PIXELS_PER_SECOND)
    ∧ (pointermoveDrag 100 recordingDragTimeline).isRecording
        = recordingDragTimeline.isRecording
    ∧ (∀ tl2 : Timeline, tl2.isDraggingTimeline = false →
        pointermoveDrag 100 tl2 = tl2) :=
  drag_mutates_startTime_unconditionally 100 recordingDragTimeline rfl

/-- Claim C6 counterexample: when the device rejects the first scrub
slice start, the retry keeps the in-buffer offset max(0, localPos) and
halves the duration; at localPos = 1 the second attempted call is
(0, 1, SCRUB_SLICE_SEC / 2), whose offset 1 is not the zero offset the
claim requires. -/
theorem scrub_retry_offset_counterexample :
    scrubStartAttempts rejectFirstSlice 1
      = [(0, 1, SCRUB_SLICE_SEC), (0, 1, SCRUB_SLICE_SEC / 2)]
    ∧ (1:ℚ) ≠ 0 := by
  constructor
  · norm_num [scrubStartAttempts, rejectFirstSlice]
  · norm_num

/-- Claim C6 amended: on a rejected scrub-slice start request the code
retries exactly once with the SAME offset max(0, localPos) and half the
slice duration (not a zero offset); an accepted first request is not
retried.  For full playback, rejected voices are skipped one by one and
the issued voices are exactly the accepted ones, so one rejection never
affects another track. -/
theorem scrub_retry_and_playback_skip
    (rejects : ℚ → ℚ → ℚ → Bool) (localPos : ℚ)
    (rej : ScheduledVoice → Bool) (startAt playFrom : ℚ)
    (tls : List Timeline) (i : ℕ) :
    (rejects 0 (max 0 localPos) SCRUB_SLICE_SEC = true →
      scrubStartAttempts rejects localPos
        = [(0, max 0 localPos, SCRUB_SLICE_SEC),
           (0, max 0 localPos, SCRUB_SLICE_SEC / 2)])
    ∧ (rejects 0 (max 0 localPos) SCRUB_SLICE_SEC = false →
      scrubStartAttempts rejects localPos
        = [(0, max 0 localPos, SCRUB_SLICE_SEC)])
    ∧ scheduleVoices rej startAt playFrom tls i
        = (scheduleVoices rejectsNothing startAt playFrom tls i).filter
            (fun p => !rej p.2) := by
  refine ⟨fun h => ?_, fun h => ?_, ?_⟩
  · simp [scrubStartAttempts, h]
  · simp [scrubStartAttempts, h]
  · induction tls generalizing i with
    | nil => rfl
    | cons tl rest ih =>
      cases hm : scheduleTimeline startAt playFrom tl with
      | none => simp only [scheduleVoices, hm]; exact ih (i + 1)
      | some v =>
        simp only [scheduleVoices, hm, rejectsNothing, Bool.false_eq_true,
          if_false, List.filter_cons]
        by_cases hrej : rej v = true
        · rw [if_pos hrej, ih (i + 1)]
          simp [hrej]
        · have hrf : rej v = false := by
            revert hrej
            cases rej v <;> simp
          rw [if_neg hrej, ih (i + 1)]
          simp [hrf]

/-- Witness for scrub_retry_and_playback_skip with the rejecting device
at localPos 1 and the accepting device on one empty timeline. -/
theorem scrub_retry_and_playback_skip_witness :
    scrubStartAttempts rejectFirstSlice 1
      = [(0, max 0 1, SCRUB_SLICE_SEC), (0, max 0 1, SCRUB_SLICE_SEC / 2)]
    ∧ scheduleVoices rejectsNothing 10 0 [initTimeline] 0
        = (scheduleVoices rejectsNothing 10 0 [initTimeline] 0).filter
            (fun p => !rejectsNothing p.2) := by
  have h := scrub_retry_and_playback_skip rejectFirstSlice 1 rejectsNothing
    10 0 [initTimeline] 0
  exact ⟨h.1 (by simp [rejectFirstSlice]), h.2.2⟩

/-- Claim C7 counterexample: in src/unnamed/part_000 the play click while
already Playing is NOT a no-op: it stops playback (toggle semantics),
flipping isPlaying to false, so the state changes. -/
theorem play_click_not_noop_counterexample :
    playingWithVoice.isPlaying = true
    ∧ (masterPlayClick_scrub 1000 5 playingWithVoice).isPlaying = false
    ∧ masterPlayClick_scrub 1000 5 playingWithVoice ≠ playingWithVoice := by
  have hstop : (masterPlayClick_scrub 1000 5 playingWithVoice).isPlaying
      = false := by
    rw [playClick_of_playing 1000 5 playingWithVoice rfl, ucv_isPlaying]
    rfl
  refine ⟨rfl, hstop, fun hcon => ?_⟩
  rw [hcon] at hstop
  exact Bool.noConfusion hstop

/-- Claim C7 amended: the src/app.js click is a silent no-op while
Playing, but the src/unnamed/part_000 click instead stops playback
(isPlaying := false, all voices ended).  While not Playing, both
variants record projectStartTime = deviceNow + 0.05 - cursorTime
(the deviceTimeAtCursorZero of the spec), keep the play-start cursor,
and transition to Playing. -/
theorem play_click_behavior (pw d : ℚ) (st : DAWState) :
    (st.isPlaying = true → masterPlayClick_app pw d st = st)
    ∧ (st.isPlaying = true →
        (masterPlayClick_scrub pw d st).isPlaying = false
        ∧ ∀ tl ∈ (masterPlayClick_scrub pw d st).timelines,
            tl.sourceNodes = [])
    ∧ (st.isPlaying = false →
        st.projectCursorTime ≤ TRACK_DURATION_SECONDS →
        ((masterPlayClick_app pw d st).projectStartTime
            = d + SCHEDULING_DELAY - st.projectCursorTime
         ∧ (masterPlayClick_app pw d st).projectCursorTimeAtPlayStart
            = st.projectCursorTime
         ∧ (masterPlayClick_app pw d st).isPlaying = true
         ∧ (masterPlayClick_scrub pw d st).projectStartTime
            = d + SCHEDULING_DELAY - st.projectCursorTime
         ∧ (masterPlayClick_scrub pw d st).projectCursorTimeAtPlayStart
            = st.projectCursorTime
         ∧ (masterPlayClick_scrub pw d st).isPlaying = true)) := by
  refine ⟨fun hp => ?_, fun hp => ?_, fun hp hle => ?_⟩
  · simp only [masterPlayClick_app, hp, if_true]
  · rw [playClick_of_playing pw d st hp]
    refine ⟨by rw [ucv_isPlaying]; rfl, fun tl htl => ?_⟩
    rw [ucv_timelines] at htl
    obtain ⟨a, -, rfl⟩ := List.mem_map.mp htl
    rfl
  · have hrun : ¬ (TRACK_DURATION_SECONDS
        ≤ d - (d + SCHEDULING_DELAY - st.projectCursorTime)) := by
      simp only [TRACK_DURATION_SECONDS, SCHEDULING_DELAY]
      have hle' : st.projectCursorTime ≤ 600 := by
        simpa [TRACK_DURATION_SECONDS] using hle
      intro hcon
      linarith
    refine ⟨?_, ?_, ?_, ?_, ?_, ?_⟩
    · simp only [masterPlayClick_app, hp, Bool.false_eq_true, if_false,
        animate_projectStartTime, stopAll_projectStartTime]
    · simp only [masterPlayClick_app, hp, Bool.false_eq_true, if_false,
        animate_cursorAtPlayStart, stopAll_cursorAtPlayStart]
    · simp only [masterPlayClick_app, hp, Bool.false_eq_true, if_false]
      rw [animate_eta_of_running pw d _ rfl hrun]
    · simp only [masterPlayClick_scrub, hp, Bool.false_eq_true, if_false,
        animate_projectStartTime, stopAll_projectStartTime,
        clearScrub_projectStartTime, stopScrubMode_projectStartTime]
    · simp only [masterPlayClick_scrub, hp, Bool.false_eq_true, if_false,
        animate_cursorAtPlayStart, stopAll_cursorAtPlayStart,
        clearScrub_cursorAtPlayStart, stopScrubMode_cursorAtPlayStart]
    · simp only [masterPlayClick_scrub, hp, Bool.false_eq_true, if_false]
      rw [animate_eta_of_running pw d _ rfl hrun]

/-- Witness for play_click_behavior: toggle on playingWithVoice and
fresh start on initState at deviceNow 5. -/
theorem play_click_behavior_witness :
    masterPlayClick_app 1000 5 playingWithVoice = playingWithVoice
    ∧ (masterPlayClick_scrub 1000 5 playingWithVoice).isPlaying = false
    ∧ ((masterPlayClick_app 1000 5 initState).projectStartTime
        = 5 + SCHEDULING_DELAY - initState.projectCursorTime
       ∧ (masterPlayClick_app 1000 5 initState).projectCursorTimeAtPlayStart
          = initState.projectCursorTime
       ∧ (masterPlayClick_app 1000 5 initState).isPlaying = true
       ∧ (masterPlayClick_scrub 1000 5 initState).projectStartTime
          = 5 + SCHEDULING_DELAY - initState.projectCursorTime
       ∧ (masterPlayClick_scrub 1000 5 initState).projectCursorTimeAtPlayStart
          = initState.projectCursorTime
       ∧ (masterPlayClick_scrub 1000 5 initState).isPlaying = true) :=
  ⟨(play_click_behavior 1000 5 playingWithVoice).1 rfl,
   ((play_click_behavior 1000 5 playingWithVoice).2.1 rfl).1,
   (play_click_behavior 1000 5 initState).2.2 rfl
     (by norm_num [initState, TRACK_DURATION_SECONDS])⟩

/-- Claim C9 counterexample: a seek does not only set the cursor — it
also mutates the module-level currentPage.  With pageWidth 1000, seeking
to t = 100 from page 0 clamps the cursor to 100 but also sets
currentPage to 5, so state other than cursorTime changes. -/
theorem seek_changes_page_counterexample :
    initState.currentPage = 0
    ∧ (setProjectCursorTime 1000 100 initState).projectCursorTime = 100
    ∧ (setProjectCursorTime 1000 100 initState).currentPage = 5 := by
  refine ⟨rfl, ?_, ?_⟩
  · rw [setProjectCursorTime_eta]
    show max 0 (min (100:ℚ) TRACK_DURATION_SECONDS) = 100
    norm_num [TRACK_DURATION_SECONDS]
  · rw [setProjectCursorTime_eta]
    show (⌊max 0 (min (100:ℚ) TRACK_DURATION_SECONDS)
        * PIXELS_PER_SECOND / 1000⌋ : ℤ) = 5
    norm_num [TRACK_DURATION_SECONDS, PIXELS_PER_SECOND]

theorem clamp_minmax (t : ℚ) :
    max 0 (min t TRACK_DURATION_SECONDS)
      = min (max t 0) TRACK_DURATION_SECONDS := by
  rw [max_min_distrib_left, max_comm 0 t,
    max_eq_right (show (0:ℚ) ≤ TRACK_DURATION_SECONDS by
      norm_num [TRACK_DURATION_SECONDS])]

/-- Claim C9 amended: for every input t, setProjectCursorTime sets the
cursor to exactly min(max(t, 0), 600); besides the cursor the only other
mutation is the page index, recomputed from the new cursor position; all
remaining state is unchanged. -/
theorem seek_clamps_and_repages (pw t : ℚ) (st : DAWState) :
    setProjectCursorTime pw t st
      = { st with
          projectCursorTime := min (max t 0) TRACK_DURATION_SECONDS,
          currentPage :=
            ⌊min (max t 0) TRACK_DURATION_SECONDS
              * PIXELS_PER_SECOND / pw⌋ } := by
  rw [setProjectCursorTime_eta, clamp_minmax]

end SoundRecorder
